import Mathlib

/-!
A verification development for the rocky web-scraping engine.

The Rust crates are shallowly embedded: each Lean definition mirrors one
Rust item (same name where possible, snake_case kept).  External effects
(HTTP fetch, the Chromium driver, the filesystem) are passed in as explicit
oracle values, so every embedded function is a pure, executable Lean
function of its inputs and those oracles.  Poll loops are embedded with an
explicit fuel argument: `none` means the loop is still running after `fuel`
iterations, and elapsed wall-clock milliseconds are threaded as an argument
that each sleep advances.
-/

namespace Rocky

/-! ## JSON values (serde_json::Value) -/

/-- A serde_json value.  Numbers are restricted to `Nat`: every number the
embedded code stores (timeouts, retry delays, counters) is a `u64`. -/
inductive JsonVal where
  | null : JsonVal
  | bool (b : Bool) : JsonVal
  | num (n : Nat) : JsonVal
  | str (s : String) : JsonVal
  | arr (items : List JsonVal) : JsonVal
  | obj (fields : List (String × JsonVal)) : JsonVal

/-- `serde_json::Map` lookup (`obj.get(k)`), first binding wins. -/
def JsonVal.getF : JsonVal → String → Option JsonVal
  | .obj fields, k => (fields.find? (fun p => p.1 = k)).map (·.2)
  | _, _ => none

/-- `Value::as_bool`. -/
def JsonVal.asBool : JsonVal → Option Bool
  | .bool b => some b
  | _ => none

/-- `Value::as_str`. -/
def JsonVal.asStr : JsonVal → Option String
  | .str s => some s
  | _ => none

/-- `Value::as_u64`. -/
def JsonVal.asNat : JsonVal → Option Nat
  | .num n => some n
  | _ => none

/-- `obj.get(k).and_then(|v| v.as_bool()).unwrap_or(default)`. -/
def JsonVal.getBoolD (v : JsonVal) (k : String) (d : Bool) : Bool :=
  ((v.getF k).bind JsonVal.asBool).getD d

/-- `obj.get(k).and_then(|v| v.as_u64()).unwrap_or(default)`. -/
def JsonVal.getNatD (v : JsonVal) (k : String) (d : Nat) : Nat :=
  ((v.getF k).bind JsonVal.asNat).getD d

/-- `obj.get(k).and_then(|v| v.as_str())`. -/
def JsonVal.getStr (v : JsonVal) (k : String) : Option String :=
  (v.getF k).bind JsonVal.asStr

/-- Insert-or-replace on an association list, modelling the key-to-value
mapping of `serde_json::Map::insert`: an insert under an existing key
replaces that entry, a new key is added.  The real map is a BTreeMap by
default, whose entries iterate in sorted key order rather than in this
list's order, so no claim theorem relies on the entry order of this
model — statements about the key list are made up to permutation. -/
def mapInsert (m : List (String × JsonVal)) (k : String) (v : JsonVal) :
    List (String × JsonVal) :=
  match m with
  | [] => [(k, v)]
  | (k', v') :: rest =>
      if k' = k then (k, v) :: rest else (k', v') :: mapInsert rest k v

/-! ## Substring test (Rust `str::contains`) -/

/-- `pat` is a prefix of `l` (on characters). -/
def charsHasPrefix : List Char → List Char → Bool
  | [], _ => true
  | _ :: _, [] => false
  | p :: ps, c :: cs => p = c && charsHasPrefix ps cs

/-- `pat` occurs contiguously inside `l`. -/
def charsHasInfix (pat : List Char) : List Char → Bool
  | [] => charsHasPrefix pat []
  | c :: cs => charsHasPrefix pat (c :: cs) || charsHasInfix pat cs

/-- Rust `s.contains(pat)` for string patterns. -/
def str_contains (s pat : String) : Bool :=
  charsHasInfix pat.toList s.toList

/-! ## rocky_core: error taxonomy (crates/core/src/lib.rs) -/

/-- `ErrorCategory`. -/
inductive ErrorCategory where
  | Network
  | ElementNotFound
  | ScriptExecution
  | Navigation
  | Browser
  | Parsing
  | Timeout
  | Auth
  | RateLimit
  | Captcha
  | Unknown
deriving DecidableEq

/-- `JobError`: classified error with context and recovery hints. -/
structure JobError where
  category : ErrorCategory
  message : String
  context : JsonVal
  recoverable : Bool
  retry_after_ms : Option Nat

/-- `JobError::new`: empty context, not recoverable, no retry delay. -/
def JobError.new (category : ErrorCategory) (message : String) : JobError :=
  { category := category
    message := message
    context := JsonVal.obj []
    recoverable := false
    retry_after_ms := none }

/-- `JobError::with_context`. -/
def JobError.with_context (e : JobError) (context : JsonVal) : JobError :=
  { e with context := context }

/-- `JobError::recoverable()` (the builder method that sets the flag). -/
def JobError.mark_recoverable (e : JobError) : JobError :=
  { e with recoverable := true }

/-- `JobError::with_retry_delay`: sets the delay and also marks the error
recoverable. -/
def JobError.with_retry_delay (e : JobError) (ms : Nat) : JobError :=
  { e with retry_after_ms := some ms, recoverable := true }

/-- `JobError::fetch_error`. -/
def JobError.fetch_error (message : String) : JobError :=
  ((JobError.new .Network message).mark_recoverable).with_retry_delay 1000

/-- `JobError::element_not_found`. -/
def JobError.element_not_found (selector : String) : JobError :=
  (JobError.new .ElementNotFound ("Element not found: " ++ selector)).with_context
    (JsonVal.obj [("selector", JsonVal.str selector)])

/-- `JobError::timeout_error`. -/
def JobError.timeout_error (message : String) : JobError :=
  ((JobError.new .Timeout message).mark_recoverable).with_retry_delay 2000

/-- `JobError::script_error`. -/
def JobError.script_error (message : String) : JobError :=
  JobError.new .ScriptExecution message

/-- `JobError::navigation_error`. -/
def JobError.navigation_error (message : String) : JobError :=
  ((JobError.new .Navigation message).mark_recoverable).with_retry_delay 1500

/-- `JobError.browser_error`. -/
def JobError.browser_error (message : String) : JobError :=
  JobError.new .Browser message

/-- `JobError::parsing_error`. -/
def JobError.parsing_error (message : String) : JobError :=
  JobError.new .Parsing message

/-- `JobError::captcha_detected`. -/
def JobError.captcha_detected (message : String) : JobError :=
  (JobError.new .Captcha message).with_context
    (JsonVal.obj [("hint", JsonVal.str "CAPTCHA detected, job cannot proceed")])

/-! ## rocky_core: action and job model -/

/-- `ScrapingAction` (valid for both backends). -/
inductive ScrapingAction where
  | Fetch (url : String)
  | Extract (selector : String) (attr : Option String)
  | ExtractMultiple (selector : String) (attrs : List String)
  | WaitFor (selector : String) (timeout_ms : Nat)

/-- `ScrollTarget`. -/
inductive ScrollTarget where
  | Element (selector : String)
  | Position (x y : Int)
  | Bottom
  | Top

/-- `BrowserAction` (browser backend only).  The Rust variant `Type` is
rendered `TypeText` because `Type` is reserved in Lean. -/
inductive BrowserAction where
  | Click (selector : String) (timeout_ms : Nat)
  | TypeText (selector text : String) (clear_first : Bool)
  | PressKey (key : String)
  | Scroll (target : ScrollTarget)
  | Screenshot (path : String) (full_page : Bool)
  | Hover (selector : String)
  | Select (selector value : String)
  | Navigate (url : String)
  | ExecuteScript (script : String)
  | SetCookie (name value : String) (domain : Option String)
  | WaitForNavigation (timeout_ms : Nat)
  | WaitFor (selector : String) (timeout_ms : Nat)
  | HandleCookieBanner (timeout_ms : Nat)
  | WaitAndClick (selector : String) (timeout_ms : Nat)

/-- `Action`: the tagged union of the two arms. -/
inductive Action where
  | Scraping (a : ScrapingAction)
  | Browser (a : BrowserAction)

/-- Whether an action is the browser arm of the union. -/
def Action.isBrowser : Action → Bool
  | .Browser _ => true
  | .Scraping _ => false

/-- `BrowserType`. -/
inductive BrowserType where
  | Chromium
  | Firefox

/-- `BrowserConfig`. -/
structure BrowserConfig where
  browser_type : BrowserType
  headless : Bool
  viewport_width : Option Nat
  viewport_height : Option Nat
  fail_on_captcha : Bool

/-- `Job`. -/
structure Job where
  id : String
  url : String
  use_browser : Bool
  actions : List Action
  browser_config : Option BrowserConfig

/-- `JobResult`. -/
structure JobResult where
  job_id : String
  success : Bool
  output : JsonVal

/-! ## rocky_core: healing -/

/-- `ErrorContext`: what the scheduler hands to the healer. -/
structure ErrorContext where
  job_id : String
  error : JobError
  attempt : Nat
  max_attempts : Nat

/-- `HealingAction`. -/
inductive HealingAction where
  | Retry
  | RetryAfter (ms : Nat)
  | Skip
  | Abort
deriving DecidableEq

/-- `DefaultErrorHealer::heal` for a healer built with the given
`max_retries`.  Note it compares `context.attempt` against the healer's own
`max_retries` field; `context.max_attempts` is not consulted. -/
def DefaultErrorHealer.heal (max_retries : Nat) (context : ErrorContext) :
    HealingAction :=
  if context.attempt ≥ max_retries then .Skip
  else if ¬ context.error.recoverable then .Skip
  else
    match context.error.retry_after_ms with
    | some delay => .RetryAfter delay
    | none => .Retry

/-- Modelled from the spec (for comparison with the code, not an embedding
of it): the four ordered healing rules of section 4.5, read with
`max_attempts` taken from the `ErrorContext` as claim C1 states them. -/
def specHealRules (context : ErrorContext) : HealingAction :=
  if context.attempt ≥ context.max_attempts then .Skip
  else if ¬ context.error.recoverable then .Skip
  else
    match context.error.retry_after_ms with
    | some delay => .RetryAfter delay
    | none => .Retry

/-! ## rocky_parser: the static HTML worker (crates/parser/src/lib.rs)

The `scraper` crate is a dependency, so it enters the model as an oracle:
an `HtmlDoc` says, for each selector string, whether `Selector::parse`
accepts it (and with what error message otherwise) and which elements
`document.select` yields.  An element is its collected text plus its
attributes.
-/

/-- An element of the parsed document: `el.text()` joined with `""`, and
the attribute list consulted by `el.value().attr(..)`. -/
structure Elem where
  text : String
  attrs : List (String × String)

/-- `el.value().attr(a)`. -/
def Elem.attr (e : Elem) (a : String) : Option String :=
  (e.attrs.find? (fun p => p.1 = a)).map (·.2)

/-- The parsed document, as the oracle view of the `scraper` crate:
`sel_ok s` is whether `Selector::parse(s)` succeeds, `sel_err s` the
stringified parse error when it does not, and `selected s` the elements
`document.select` produces for a parsed selector. -/
structure HtmlDoc where
  sel_ok : String → Bool
  sel_err : String → String
  selected : String → List Elem

/-- The output map being built by a worker (`serde_json::Map`). -/
abbrev OutMap := List (String × JsonVal)

/-- The error `ParserWorker::execute` raises on a browser action. -/
def parser_browser_action_error : JobError :=
  JobError.new .Unknown
    "ParserWorker cannot execute browser actions. Use BrowserWorker instead."

/-- `ParserWorker::handle_scraping_action`: Fetch is a no-op at action
level; WaitFor records whether the selector matches; Extract collects
text or an attribute per match; ExtractMultiple builds one object per
match with a field per requested attribute (`"text"` meaning joined
text).  A selector that fails to parse raises `parsing_error`. -/
def ParserWorker.handle_scraping_action (doc : HtmlDoc)
    (action : ScrapingAction) (output : OutMap) : Except JobError OutMap :=
  match action with
  | .Fetch _ => .ok output
  | .WaitFor selector _ =>
      if doc.sel_ok selector then
        .ok (mapInsert output ("waitfor:" ++ selector)
          (JsonVal.bool (!(doc.selected selector).isEmpty)))
      else .error (JobError.parsing_error (doc.sel_err selector))
  | .Extract selector attr =>
      if doc.sel_ok selector then
        let values := (doc.selected selector).map (fun el =>
          match attr with
          | some a => (el.attr a).getD ""
          | none => el.text)
        .ok (mapInsert output ("extract:" ++ selector)
          (JsonVal.arr (values.map JsonVal.str)))
      else .error (JobError.parsing_error (doc.sel_err selector))
  | .ExtractMultiple selector attrs =>
      if doc.sel_ok selector then
        let results := (doc.selected selector).map (fun el =>
          JsonVal.obj (attrs.foldl (fun m a =>
            mapInsert m a (JsonVal.str
              (if a = "text" then el.text else (el.attr a).getD ""))) []))
        .ok (mapInsert output ("extract_multiple:" ++ selector)
          (JsonVal.arr results))
      else .error (JobError.parsing_error (doc.sel_err selector))

/-- The action loop of `ParserWorker::execute`: scraping actions are
handled in order against the already-parsed document; the first browser
action aborts the job with the Unknown-category error. -/
def ParserWorker.run_actions (doc : HtmlDoc) :
    List Action → OutMap → Except JobError OutMap
  | [], output => .ok output
  | Action.Scraping a :: rest, output =>
      match ParserWorker.handle_scraping_action doc a output with
      | .ok out => ParserWorker.run_actions doc rest out
      | .error e => .error e
  | Action.Browser _ :: _, _ => .error parser_browser_action_error

/-- `ParserWorker::execute`.  The HTTP fetch is the oracle argument:
`.error e` is a failed GET (or body read) with stringified error `e`,
`.ok doc` the parsed document (`Html::parse_document` itself never
fails). -/
def ParserWorker.execute (fetched : Except String HtmlDoc) (job : Job) :
    Except JobError JobResult :=
  match fetched with
  | .error e => .error (JobError.fetch_error e)
  | .ok doc =>
      match ParserWorker.run_actions doc job.actions [] with
      | .error e => .error e
      | .ok output =>
          .ok { job_id := job.id, success := true,
                output := JsonVal.obj output }

/-! ### The section 4.4 output key scheme -/

/-- The output key a scraping action writes, if any: Fetch writes none. -/
def ScrapingAction.key : ScrapingAction → Option String
  | .Fetch _ => none
  | .WaitFor s _ => some ("waitfor:" ++ s)
  | .Extract s _ => some ("extract:" ++ s)
  | .ExtractMultiple s _ => some ("extract_multiple:" ++ s)

/-- The output key a browser action writes (every browser action writes
exactly one). -/
def BrowserAction.key : BrowserAction → String
  | .Click s _ => "click:" ++ s
  | .TypeText s _ _ => "type:" ++ s
  | .PressKey _ => "press_key"
  | .Scroll _ => "scroll"
  | .Screenshot _ _ => "screenshot"
  | .Hover s => "hover:" ++ s
  | .Select s _ => "select:" ++ s
  | .Navigate _ => "navigate"
  | .ExecuteScript _ => "execute_script"
  | .SetCookie n _ _ => "set_cookie:" ++ n
  | .WaitForNavigation _ => "wait_for_navigation"
  | .WaitFor s _ => "waitfor:" ++ s
  | .HandleCookieBanner _ => "cookie_banner_handled"
  | .WaitAndClick s _ => "wait_and_click:" ++ s

/-- The output key of an action, if any. -/
def Action.key : Action → Option String
  | .Scraping a => a.key
  | .Browser a => some a.key

/-- Append a key if it is not already present (what an insert-or-replace
map does to its key list). -/
def dedupAppend (ks : List String) (k : String) : List String :=
  if k ∈ ks then ks else ks ++ [k]

/-- One key per distinct action key, accumulated in first-write order.
Used only up to permutation: the real map iterates in sorted key order,
so only the key set and the one-entry-per-distinct-key count — which
both orders share — are asserted about the program. -/
def expectedKeys (actions : List Action) : List String :=
  (actions.filterMap Action.key).foldl dedupAppend []

/-- Whether a scraping action gets past selector parsing on this
document (Fetch trivially does). -/
def scraping_parses (doc : HtmlDoc) : ScrapingAction → Bool
  | .Fetch _ => true
  | .WaitFor s _ => doc.sel_ok s
  | .Extract s _ => doc.sel_ok s
  | .ExtractMultiple s _ => doc.sel_ok s

/-- A document on which every selector parses and nothing matches. -/
def emptyDoc : HtmlDoc :=
  { sel_ok := fun _ => true, sel_err := fun _ => "", selected := fun _ => [] }

/-- A document whose selector parser rejects exactly the empty string —
the concrete behavior of `scraper::Selector::parse`, for which an empty
selector list is a parse error. -/
def strictDoc : HtmlDoc :=
  { sel_ok := fun s => !s.isEmpty
    sel_err := fun _ => "empty selector"
    selected := fun _ => [] }

/-- A non-browser job whose first action is a scraping action with an
unparsable selector and whose second action is a browser action. -/
def c4_job : Job :=
  { id := "c4", url := "http://example.com", use_browser := false,
    actions := [Action.Scraping (.WaitFor "" 0),
                Action.Browser (.PressKey "Enter")],
    browser_config := none }

/-- A non-browser job consisting of a single Fetch action. -/
def c5_job_fetch : Job :=
  { id := "f", url := "http://example.com", use_browser := false,
    actions := [Action.Scraping (.Fetch "http://example.com/next")],
    browser_config := none }

/-- A non-browser job with two Extract actions on the same selector. -/
def c5_job_dup : Job :=
  { id := "d", url := "http://example.com", use_browser := false,
    actions := [Action.Scraping (.Extract "h1" none),
                Action.Scraping (.Extract "h1" none)],
    browser_config := none }

/-! ## rocky_scheduler (crates/scheduler/src/lib.rs)

The dispatch loop's per-job completion handling is embedded as two pure
step functions on a scheduler state (the inbound queue's buffered jobs
plus the `retry_counts` map).  `Scheduler::run`'s select loop, semaphore
and task spawning are concurrency plumbing around exactly these steps.
-/

/-- The `retry_counts` HashMap, as a partial map from job id. -/
abbrev RetryCounts := String → Option Nat

/-- `HashMap::insert`. -/
def countsInsert (m : RetryCounts) (id : String) (v : Nat) : RetryCounts :=
  fun x => if x = id then some v else m x

/-- `HashMap::remove`. -/
def countsRemove (m : RetryCounts) (id : String) : RetryCounts :=
  fun x => if x = id then none else m x

/-- Scheduler-visible state: the buffered inbound queue and `retry_counts`. -/
structure SchedState where
  queue : List Job
  counts : RetryCounts

/-- `tokio::mpsc::Sender::try_send` on a channel of the given capacity:
enqueue at the tail if there is room, otherwise return a `Full` error that
the scheduler discards — here, leave the queue unchanged. -/
def mpsc_try_send (capacity : Nat) (q : List Job) (j : Job) : List Job :=
  if q.length < capacity then q ++ [j] else q

/-- `Scheduler::run`, success arm (`Ok(ref r)`): save the result (storage
is fire-and-forget and does not touch scheduler state) and clear the
retry count for the job. -/
def scheduler_on_success (st : SchedState) (job : Job) : SchedState :=
  { st with counts := countsRemove st.counts job.id }

/-- What the failure arm of `Scheduler::run` leaves behind: the updated
`retry_counts`, the inbound queue after any immediate re-enqueue, the
delayed re-enqueues spawned for RetryAfter (delay in ms, job), and the
healer's verdict. -/
structure FailureOutcome where
  counts : RetryCounts
  queue : List Job
  delayed : List (Nat × Job)
  verdict : HealingAction

/-- `Scheduler::run`, failure arm (`Err(ref err)`): bump the retry count,
build the `ErrorContext` (its `max_attempts` is the scheduler's
`max_retries`), ask the healer, then: Retry → immediate `try_send`;
RetryAfter ms → spawn a task that sleeps ms then `try_send`s (recorded
here as a delayed send); Skip and Abort → log only. -/
def scheduler_on_failure (capacity max_retries : Nat)
    (healer : ErrorContext → HealingAction) (st : SchedState) (job : Job)
    (err : JobError) : FailureOutcome :=
  let attempt := (st.counts job.id).getD 0 + 1
  let counts := countsInsert st.counts job.id attempt
  let ctx : ErrorContext :=
    { job_id := job.id, error := err, attempt := attempt,
      max_attempts := max_retries }
  match healer ctx with
  | .Retry =>
      { counts := counts, queue := mpsc_try_send capacity st.queue job,
        delayed := [], verdict := .Retry }
  | .RetryAfter ms =>
      { counts := counts, queue := st.queue, delayed := [(ms, job)],
        verdict := .RetryAfter ms }
  | .Skip =>
      { counts := counts, queue := st.queue, delayed := [], verdict := .Skip }
  | .Abort =>
      { counts := counts, queue := st.queue, delayed := [], verdict := .Abort }

/-- The spawned RetryAfter task firing after its sleep: a plain
`try_send` of the recorded job. -/
def deliver_delayed (capacity : Nat) (q : List Job) (d : Nat × Job) :
    List Job :=
  mpsc_try_send capacity q d.2

/-- A job with no actions, used as a concrete scheduler input. -/
def jobA : Job :=
  { id := "a", url := "http://example.com", use_browser := false,
    actions := [], browser_config := none }

/-! ## rocky_browser: shared error classification
(crates/browser/src/shared/errors.rs) -/

/-- `to_job_error`: classify a stringified driver error by substring. -/
def to_job_error (e : String) (action : String) : JobError :=
  if str_contains e "timeout" || str_contains e "Timeout" then
    JobError.timeout_error (action ++ " timed out: " ++ e)
  else if str_contains e "navigation" || str_contains e "Navigation" then
    JobError.navigation_error (action ++ " navigation failed: " ++ e)
  else if str_contains e "not found" || str_contains e "null" then
    JobError.element_not_found (action ++ ": " ++ e)
  else
    JobError.browser_error (action ++ " failed: " ++ e)

/-! ## rocky_browser: wait strategies
(crates/browser/src/worker/chromium/wait.rs)

Each `page.evaluate` of a poll loop is one entry of an oracle trace
`probes : Nat → ProbeRes`, indexed by how many evaluates the loop has
issued.  Loops carry a fuel argument (`none` = still looping after that
many iterations) and the elapsed milliseconds, advanced by each sleep:
500 on a context-destroyed retry in the element wait, 1000 in the
stability wait, and `check_interval` at the bottom of each iteration.
`Instant::elapsed` is read against this counter, and both timeout tests
in the source are strict (`start.elapsed() > timeout`). -/

/-- One `page.evaluate` outcome: a driver error (its `to_string()`), or
success with the optional returned JSON value (`result.value()`). -/
inductive ProbeRes where
  | err (e : String)
  | val (v : Option JsonVal)

/-- The context-loss test both loops apply to a driver error string. -/
def is_context_destroyed (e : String) : Bool :=
  str_contains e "Cannot find context" ||
    str_contains e "Execution context was destroyed"

/-- The element-wait error when the element does not exist at timeout. -/
def elem_not_found_err (selector : String) (timeout_ms : Nat) : JobError :=
  (JobError.element_not_found
      ("Element \x27" ++ selector ++ "\x27 not found after " ++
        toString timeout_ms ++ "ms")).with_context
    (JsonVal.obj [("selector", JsonVal.str selector),
                  ("timeout_ms", JsonVal.num timeout_ms)])

/-- The element-wait error when the element exists but is invisible. -/
def elem_not_visible_err (selector : String) : JobError :=
  (JobError.element_not_found
      ("Element \x27" ++ selector ++ "\x27 exists but not visible")).with_context
    (JsonVal.obj [("selector", JsonVal.str selector),
                  ("hint", JsonVal.str "Element may be hidden with CSS")])

/-- The element-wait error when the element is obscured. -/
def elem_obscured_err (selector obscured_by : String) : JobError :=
  (JobError.element_not_found
      ("Element \x27" ++ selector ++ "\x27 obscured by " ++ obscured_by)).with_context
    (JsonVal.obj [("selector", JsonVal.str selector),
                  ("obscured_by", JsonVal.str obscured_by),
                  ("suggestion",
                   JsonVal.str "Use HandleCookieBanner or WaitAndClick")])

/-- The element-wait error when the element is disabled. -/
def elem_disabled_err (selector : String) : JobError :=
  JobError.element_not_found
    ("Element \x27" ++ selector ++ "\x27 is disabled")

/-- The element-wait error when the timeout passes in any other state. -/
def elem_timeout_err (selector : String) (timeout_ms : Nat) : JobError :=
  (JobError.timeout_error
      ("Timeout waiting for element \x27" ++ selector ++ "\x27")).with_context
    (JsonVal.obj [("selector", JsonVal.str selector),
                  ("timeout_ms", JsonVal.num timeout_ms)])

/-- The loop body of `wait_for_element` once `page.evaluate` succeeded
with value `v`: `some` = return from the function with that result,
`none` = fall through to the check-interval sleep and the next probe.
The bottom timeout test of the source (line 97) reads the same elapsed
value as the state block just above it, so for an object-valued probe
that block already decides and the bottom test adds nothing.
Flag reads default to `false` (`unwrap_or(false)`); a missing or
non-object value skips the state block and reaches only the bottom
timeout test. -/
def element_probe_decision (selector : String) (timeout_ms : Nat)
    (check_clickable : Bool) (v : Option JsonVal) (elapsed : Nat) :
    Option (Except JobError Unit) :=
  match v with
  | some (JsonVal.obj fields) =>
      if !(JsonVal.obj fields).getBoolD "exists" false then
        if elapsed > timeout_ms then
          some (.error (elem_not_found_err selector timeout_ms))
        else none
      else if !(JsonVal.obj fields).getBoolD "visible" false then
        if elapsed > timeout_ms then
          some (.error (elem_not_visible_err selector))
        else none
      else if (JsonVal.obj fields).getBoolD "obscured" false then
        if elapsed > timeout_ms then
          some (.error (elem_obscured_err selector
            (((JsonVal.obj fields).getStr "obscuredBy").getD "unknown")))
        else none
      else if check_clickable && (JsonVal.obj fields).getBoolD "disabled" false then
        if elapsed > timeout_ms then
          some (.error (elem_disabled_err selector))
        else none
      else some (.ok ())
  | _ =>
      if elapsed > timeout_ms then
        some (.error (elem_timeout_err selector timeout_ms))
      else none

/-- `WaitStrategy::wait_for_element`, fuelled.  A context-destroyed
evaluate error sleeps 500ms and continues at the top of the loop —
skipping the bottom timeout test; any other evaluate error returns
`to_job_error(e, "WaitFor")` at once. -/
def wait_for_element_loop (probes : Nat → ProbeRes) (selector : String)
    (timeout_ms check_interval : Nat) (check_clickable : Bool) :
    Nat → Nat → Nat → Option (Except JobError Unit)
  | 0, _, _ => none
  | fuel + 1, i, elapsed =>
    match probes i with
    | .err e =>
        if is_context_destroyed e then
          wait_for_element_loop probes selector timeout_ms check_interval
            check_clickable fuel (i + 1) (elapsed + 500)
        else some (.error (to_job_error e "WaitFor"))
    | .val v =>
        match element_probe_decision selector timeout_ms check_clickable
            v elapsed with
        | some r => some r
        | none =>
            wait_for_element_loop probes selector timeout_ms check_interval
              check_clickable fuel (i + 1) (elapsed + check_interval)

/-- `wait_for_element` entry point: probe 0, elapsed 0. -/
def wait_for_element (probes : Nat → ProbeRes) (selector : String)
    (timeout_ms check_interval : Nat) (check_clickable : Bool)
    (fuel : Nat) : Option (Except JobError Unit) :=
  wait_for_element_loop probes selector timeout_ms check_interval
    check_clickable fuel 0 0

/-- The stability predicate one probe value must satisfy:
`readyState == "complete"` and `activeRequests == 0` (missing
`activeRequests` defaults to 0). -/
def page_is_stable (st : JsonVal) : Bool :=
  (st.getStr "readyState" == some "complete") &&
    (st.getNatD "activeRequests" 0 == 0)

/-- The body of one `wait_for_stable` iteration once `page.evaluate`
succeeded with value `v`, given the consecutive-stable counter: first
component `some r` = return from the function with `r`, `none` = fall
through to the check-interval sleep; second component is the counter the
next iteration carries.  A stable object probe bumps the counter and
succeeds at 5; a non-stable object probe resets it to 0; an object-less
value leaves it unchanged; the bottom timeout test returns success —
never an error. -/
def stable_probe_decision (timeout_ms : Nat) (v : Option JsonVal)
    (elapsed stable_checks : Nat) :
    Option (Except JobError Unit) × Nat :=
  match v with
  | some (JsonVal.obj fields) =>
      if page_is_stable (JsonVal.obj fields) then
        if stable_checks + 1 ≥ 5 then (some (.ok ()), stable_checks + 1)
        else if elapsed > timeout_ms then (some (.ok ()), stable_checks + 1)
        else (none, stable_checks + 1)
      else if elapsed > timeout_ms then (some (.ok ()), 0)
      else (none, 0)
  | _ =>
      if elapsed > timeout_ms then (some (.ok ()), stable_checks)
      else (none, stable_checks)

/-- `WaitStrategy::wait_for_stable`, fuelled.  A context-destroyed
evaluate error resets the counter and sleeps 1000ms, skipping the bottom
timeout test; any other evaluate error returns
`to_job_error(e, "WaitForStable")` at once; an evaluated probe is decided
by `stable_probe_decision`. -/
def wait_for_stable_loop (probes : Nat → ProbeRes)
    (timeout_ms check_interval : Nat) :
    Nat → Nat → Nat → Nat → Option (Except JobError Unit)
  | 0, _, _, _ => none
  | fuel + 1, i, elapsed, stable_checks =>
    match probes i with
    | .err e =>
        if is_context_destroyed e then
          wait_for_stable_loop probes timeout_ms check_interval fuel
            (i + 1) (elapsed + 1000) 0
        else some (.error (to_job_error e "WaitForStable"))
    | .val v =>
        match stable_probe_decision timeout_ms v elapsed stable_checks with
        | (some r, _) => some r
        | (none, c) =>
            wait_for_stable_loop probes timeout_ms check_interval fuel
              (i + 1) (elapsed + check_interval) c

/-- `wait_for_stable` entry point: the loop is preceded by a fixed 500ms
sleep, so elapsed starts at 500; counter starts at 0. -/
def wait_for_stable (probes : Nat → ProbeRes)
    (timeout_ms check_interval fuel : Nat) :
    Option (Except JobError Unit) :=
  wait_for_stable_loop probes timeout_ms check_interval fuel 0 500 0

/-- The success condition of one element probe, as the source orders the
checks: exists, visible, not obscured, and — when clickability is
checked — not disabled. -/
def element_ready (check_clickable : Bool) (st : JsonVal) : Bool :=
  st.getBoolD "exists" false && st.getBoolD "visible" false &&
    !st.getBoolD "obscured" false &&
    !(check_clickable && st.getBoolD "disabled" false)

/-- Probe `j` of a trace observed a stable page state. -/
def stable_at (probes : Nat → ProbeRes) (j : Nat) : Prop :=
  ∃ fields, probes j = .val (some (JsonVal.obj fields)) ∧
    page_is_stable (JsonVal.obj fields) = true

/-- A probe trace in which every evaluate fails with the
context-destroyed driver error. -/
def ctxTrace : Nat → ProbeRes :=
  fun _ => .err "Execution context was destroyed."

/-- A probe trace whose every evaluate observes a fully loaded page. -/
def stableTrace : Nat → ProbeRes :=
  fun _ => .val (some (JsonVal.obj
    [("readyState", JsonVal.str "complete"),
     ("activeRequests", JsonVal.num 0)]))

/-- Element-state fields describing a ready element. -/
def readyFields : List (String × JsonVal) :=
  [("exists", JsonVal.bool true), ("visible", JsonVal.bool true),
   ("obscured", JsonVal.bool false), ("disabled", JsonVal.bool false)]

/-! ## rocky_browser: action handler and worker
(crates/browser/src/worker/chromium/actions.rs, worker.rs)

The handler's sub-operations — the wait strategies (verified above
against wait.rs), `page.evaluate`, `page.goto`, the screenshot capture
and file write — enter as a `PageOps` oracle: the theorems below hold
for every behavior of these operations.  The JavaScript sources of
shared/js are opaque to this model; each is represented by a token
string, and the JSON serialization of injected arguments is modelled
without character escaping, since no theorem depends on script text. -/

/-- Token for `js::element::SCROLL_INTO_VIEW`. -/
def SCROLL_INTO_VIEW : String := "SCROLL_INTO_VIEW"

/-- Token for `js::element::EXTRACT_TEXT`. -/
def EXTRACT_TEXT : String := "EXTRACT_TEXT"

/-- Token for `js::element::EXTRACT_ATTR`. -/
def EXTRACT_ATTR : String := "EXTRACT_ATTR"

/-- Token for `js::element::EXTRACT_MULTIPLE`. -/
def EXTRACT_MULTIPLE : String := "EXTRACT_MULTIPLE"

/-- Token for `js::element::SAFE_CLICK`. -/
def SAFE_CLICK : String := "SAFE_CLICK"

/-- Token for `js::element::TYPE_TEXT`. -/
def TYPE_TEXT : String := "TYPE_TEXT"

/-- Token for `js::element::HOVER_ELEMENT`. -/
def HOVER_ELEMENT : String := "HOVER_ELEMENT"

/-- Token for `js::element::SELECT_OPTION`. -/
def SELECT_OPTION : String := "SELECT_OPTION"

/-- Token for `js::element::SET_COOKIE`. -/
def SET_COOKIE : String := "SET_COOKIE"

/-- Token for the inline Enter-key submission script of `PressKey`. -/
def PRESS_ENTER_SCRIPT : String := "PRESS_ENTER_SCRIPT"

/-- A JSON string literal (escaping not modelled). -/
def json_str (s : String) : String := "\x22" ++ s ++ "\x22"

/-- `json!` of an optional string. -/
def json_opt_str : Option String → String
  | some s => json_str s
  | none => "null"

/-- `json!` of a vector of strings. -/
def json_str_list (xs : List String) : String :=
  "[" ++ String.intercalate ", " (xs.map json_str) ++ "]"

/-- `js::build_js_call`. -/
def build_js_call (func : String) (args : List String) : String :=
  "(" ++ func ++ ")(" ++ String.intercalate ", " args ++ ")"

/-- The inline generic-key script of `PressKey` with the key injected. -/
def press_key_script (key : String) : String :=
  "PRESS_KEY_SCRIPT " ++ json_str key

/-- The oracle view of one browser page plus its wait strategy: result of
each sub-operation the action handler invokes.  `evaluate` maps the
script source to a driver error string or the returned optional JSON
value; `cookie_probes` is the evaluate trace of the cookie-banner poll
loop, indexed by iteration. -/
structure PageOps where
  wait_for_element : String → Nat → Bool → Except JobError Unit
  evaluate : String → Except String (Option JsonVal)
  goto : String → Except String Unit
  wait_for_stable : Nat → Except JobError Unit
  wait_for_navigation : Nat → Except JobError Unit
  screenshot : Bool → Except String Unit
  write_file : String → Except String Unit
  cookie_probes : Nat → Except String (Option JsonVal)

/-- `ActionHandler::scroll_to_element` (plus its 300ms settle). -/
def ActionHandler.scroll_to_element (p : PageOps) (selector : String) :
    Except JobError Unit :=
  match p.evaluate (build_js_call SCROLL_INTO_VIEW
      [json_str selector, json_str "center"]) with
  | .error e => .error (to_job_error e "Scroll")
  | .ok _ => .ok ()

/-- `ActionHandler::scroll` (plus its 500ms settle). -/
def ActionHandler.scroll (p : PageOps) (target : ScrollTarget) :
    Except JobError Unit :=
  let js :=
    match target with
    | .Element selector =>
        build_js_call SCROLL_INTO_VIEW [json_str selector, json_str "center"]
    | .Position x y =>
        "window.scrollTo(" ++ toString x ++ "," ++ toString y ++ ")"
    | .Bottom => "window.scrollTo(0,document.body.scrollHeight)"
    | .Top => "window.scrollTo(0,0)"
  match p.evaluate js with
  | .error e => .error (to_job_error e "Scroll")
  | .ok _ => .ok ()

/-- The cookie-banner poll loop of `HandleCookieBanner`: while elapsed is
below the timeout, evaluate the probe (each iteration then sleeps
500ms); an evaluate error or non-clicked result continues; a
`clicked: true` object returns its button text.  `none` = the loop timed
out without a click. -/
def cookie_banner_loop (probe : Nat → Except String (Option JsonVal))
    (timeout_ms : Nat) (i elapsed : Nat) : Option String :=
  if _h : elapsed < timeout_ms then
    match probe i with
    | .ok (some v) =>
        if v.getBoolD "clicked" false then some ((v.getStr "text").getD "")
        else cookie_banner_loop probe timeout_ms (i + 1) (elapsed + 500)
    | _ => cookie_banner_loop probe timeout_ms (i + 1) (elapsed + 500)
  else none
termination_by timeout_ms - elapsed
decreasing_by all_goals omega

/-- `ActionHandler::handle_scraping`, browser backend: Fetch is a no-op,
WaitFor delegates to the element wait, Extract and ExtractMultiple
evaluate the extraction scripts (a missing result value defaults to an
empty array). -/
def ActionHandler.handle_scraping (p : PageOps) (action : ScrapingAction)
    (output : OutMap) : Except JobError OutMap :=
  match action with
  | .Fetch _ => .ok output
  | .WaitFor selector timeout_ms =>
      match p.wait_for_element selector timeout_ms false with
      | .error e => .error e
      | .ok _ =>
          .ok (mapInsert output ("waitfor:" ++ selector) (JsonVal.bool true))
  | .Extract selector attr =>
      let js :=
        match attr with
        | some a => build_js_call EXTRACT_ATTR [json_str selector, json_str a]
        | none => build_js_call EXTRACT_TEXT [json_str selector]
      match p.evaluate js with
      | .error e => .error (JobError.script_error ("Extract failed: " ++ e))
      | .ok v =>
          .ok (mapInsert output ("extract:" ++ selector)
            (v.getD (JsonVal.arr [])))
  | .ExtractMultiple selector attrs =>
      match p.evaluate (build_js_call EXTRACT_MULTIPLE
          [json_str selector, json_str_list attrs]) with
      | .error e =>
          .error (JobError.script_error ("ExtractMultiple failed: " ++ e))
      | .ok v =>
          .ok (mapInsert output ("extract_multiple:" ++ selector)
            (v.getD (JsonVal.arr [])))

/-- `ActionHandler::handle_browser`: one arm per browser action, each
classifying its own failures and writing exactly one output entry under
its section-4.4 key on success. -/
def ActionHandler.handle_browser (p : PageOps) (action : BrowserAction)
    (output : OutMap) : Except JobError OutMap :=
  match action with
  | .Click selector timeout_ms =>
      match p.wait_for_element selector timeout_ms true with
      | .error e => .error e
      | .ok _ =>
      match ActionHandler.scroll_to_element p selector with
      | .error e => .error e
      | .ok _ =>
      match p.evaluate (build_js_call SAFE_CLICK [json_str selector]) with
      | .error e => .error (JobError.script_error ("Click failed: " ++ e))
      | .ok _ =>
          .ok (mapInsert output ("click:" ++ selector) (JsonVal.bool true))
  | .TypeText selector text clear_first =>
      match p.wait_for_element selector 10000 false with
      | .error e => .error e
      | .ok _ =>
      match p.evaluate (build_js_call TYPE_TEXT [json_str selector,
          json_str text, if clear_first then "true" else "false"]) with
      | .error e => .error (JobError.script_error ("Type failed: " ++ e))
      | .ok _ =>
          .ok (mapInsert output ("type:" ++ selector) (JsonVal.str text))
  | .PressKey key =>
      let script_result :=
        if key.toLower = "enter" then
          match p.evaluate PRESS_ENTER_SCRIPT with
          | .error e =>
              Except.error
                (JobError.script_error ("PressKey (Enter) failed: " ++ e))
          | .ok _ => Except.ok ()
        else
          match p.evaluate (press_key_script key) with
          | .error e =>
              Except.error (JobError.script_error ("PressKey failed: " ++ e))
          | .ok _ => Except.ok ()
      match script_result with
      | .error e => .error e
      | .ok _ => .ok (mapInsert output "press_key" (JsonVal.str key))
  | .Scroll target =>
      match ActionHandler.scroll p target with
      | .error e => .error e
      | .ok _ => .ok (mapInsert output "scroll" (JsonVal.bool true))
  | .Screenshot path full_page =>
      match p.screenshot full_page with
      | .error e =>
          .error (JobError.browser_error ("Screenshot failed: " ++ e))
      | .ok _ =>
      match p.write_file path with
      | .error e =>
          .error (JobError.browser_error
            ("Failed to save screenshot: " ++ e))
      | .ok _ => .ok (mapInsert output "screenshot" (JsonVal.str path))
  | .Hover selector =>
      match p.wait_for_element selector 10000 false with
      | .error e => .error e
      | .ok _ =>
      match p.evaluate (build_js_call HOVER_ELEMENT [json_str selector]) with
      | .error e => .error (JobError.script_error ("Hover failed: " ++ e))
      | .ok _ =>
          .ok (mapInsert output ("hover:" ++ selector) (JsonVal.bool true))
  | .Select selector value =>
      match p.wait_for_element selector 10000 false with
      | .error e => .error e
      | .ok _ =>
      match p.evaluate (build_js_call SELECT_OPTION
          [json_str selector, json_str value]) with
      | .error e => .error (JobError.script_error ("Select failed: " ++ e))
      | .ok _ =>
          .ok (mapInsert output ("select:" ++ selector) (JsonVal.str value))
  | .SetCookie name value domain =>
      match p.evaluate (build_js_call SET_COOKIE [json_str name,
          json_str value, json_opt_str domain]) with
      | .error e => .error (JobError.script_error ("SetCookie failed: " ++ e))
      | .ok _ =>
          .ok (mapInsert output ("set_cookie:" ++ name) (JsonVal.str value))
  | .ExecuteScript script =>
      match p.evaluate script with
      | .error e =>
          .error (JobError.script_error ("ExecuteScript failed: " ++ e))
      | .ok v =>
          .ok (mapInsert output "execute_script" (v.getD JsonVal.null))
  | .Navigate url =>
      match p.goto url with
      | .error e =>
          .error (JobError.navigation_error ("Navigate failed: " ++ e))
      | .ok _ =>
      match p.wait_for_stable 30000 with
      | .error e => .error e
      | .ok _ => .ok (mapInsert output "navigate" (JsonVal.str url))
  | .WaitForNavigation timeout_ms =>
      match p.wait_for_navigation timeout_ms with
      | .error e => .error e
      | .ok _ =>
          .ok (mapInsert output "wait_for_navigation" (JsonVal.bool true))
  | .WaitFor selector timeout_ms =>
      match p.wait_for_element selector timeout_ms false with
      | .error e => .error e
      | .ok _ =>
          .ok (mapInsert output ("waitfor:" ++ selector) (JsonVal.bool true))
  | .WaitAndClick selector timeout_ms =>
      match p.wait_for_element selector timeout_ms true with
      | .error e => .error e
      | .ok _ =>
      match ActionHandler.scroll_to_element p selector with
      | .error e => .error e
      | .ok _ =>
      match p.evaluate (build_js_call SAFE_CLICK [json_str selector]) with
      | .error e =>
          .error (JobError.script_error ("WaitAndClick failed: " ++ e))
      | .ok _ =>
          .ok (mapInsert output ("wait_and_click:" ++ selector)
            (JsonVal.bool true))
  | .HandleCookieBanner timeout_ms =>
      match cookie_banner_loop p.cookie_probes timeout_ms 0 0 with
      | some text =>
          .ok (mapInsert output "cookie_banner_handled"
            (JsonVal.obj [("clicked", JsonVal.bool true),
                          ("button_text", JsonVal.str text)]))
      | none =>
          .ok (mapInsert output "cookie_banner_handled"
            (JsonVal.obj [("clicked", JsonVal.bool false),
                          ("reason", JsonVal.str "not found")]))

/-- `obj.get(k).and_then(as_array)` joined with `", "`, with a default. -/
def joined_str_array (v : JsonVal) (k d : String) : String :=
  match v.getF k with
  | some (JsonVal.arr items) =>
      String.intercalate ", " (items.filterMap JsonVal.asStr)
  | _ => d

/-- `ChromiumWorker::check_captcha`, over the oracle result of the
detection script: an evaluate error is a script error; a missing or
non-object value, or `detected: false`, passes; a detection builds the
captcha error with the message picked by keyword/type availability and
the full context bag. -/
def ChromiumWorker.check_captcha
    (res : Except String (Option JsonVal)) : Except JobError Unit :=
  match res with
  | .error e =>
      .error (JobError.script_error ("CAPTCHA detection failed: " ++ e))
  | .ok none => .ok ()
  | .ok (some value) =>
      match value with
      | JsonVal.obj fields =>
          if (JsonVal.obj fields).getBoolD "detected" false then
            let types := joined_str_array (JsonVal.obj fields) "types" "unknown"
            let keywords := joined_str_array (JsonVal.obj fields) "keywords" ""
            let page_title :=
              ((JsonVal.obj fields).getStr "pageTitle").getD "unknown"
            let url := ((JsonVal.obj fields).getStr "url").getD "unknown"
            let title_match := (JsonVal.obj fields).getBoolD "titleMatch" false
            let url_match := (JsonVal.obj fields).getBoolD "urlMatch" false
            let body_sample :=
              ((JsonVal.obj fields).getStr "bodyTextSample").getD ""
            let message :=
              if keywords ≠ "" then
                "CAPTCHA or consent page detected on \x27" ++ page_title ++
                  "\x27"
              else if types ≠ "" then
                "CAPTCHA detected on \x27" ++ page_title ++ "\x27 (type: " ++
                  types ++ ")"
              else
                "CAPTCHA or verification page detected on \x27" ++
                  page_title ++ "\x27"
            .error ((JobError.captcha_detected message).with_context
              (JsonVal.obj [("types", JsonVal.str types),
                            ("keywords", JsonVal.str keywords),
                            ("page_title", JsonVal.str page_title),
                            ("url", JsonVal.str url),
                            ("title_match", JsonVal.bool title_match),
                            ("url_match", JsonVal.bool url_match),
                            ("body_sample", JsonVal.str body_sample)]))
          else .ok ()
      | _ => .ok ()

/-- The action loop of `ChromiumWorker::execute_actions`. -/
def ChromiumWorker.execute_actions (p : PageOps) :
    List Action → OutMap → Except JobError OutMap
  | [], output => .ok output
  | Action.Scraping a :: rest, output =>
      match ActionHandler.handle_scraping p a output with
      | .ok out => ChromiumWorker.execute_actions p rest out
      | .error e => .error e
  | Action.Browser a :: rest, output =>
      match ActionHandler.handle_browser p a output with
      | .ok out => ChromiumWorker.execute_actions p rest out
      | .error e => .error e

/-- A per-job browser session, as oracles: the launch (temp dir, config
and spawn errors included), the `new_page("about:blank")` call, the page
operations, and the CAPTCHA-detection evaluate result. -/
structure ChromSession where
  launch : Except JobError Unit
  new_page : Except String Unit
  page : PageOps
  captcha_result : Except String (Option JsonVal)

/-- `ChromiumWorker::execute`: launch, open a blank page, navigate to
the job URL, wait for stability (with the configured page-stable
timeout), optionally check for CAPTCHA, run the actions, then report
success. -/
def ChromiumWorker.execute (s : ChromSession) (page_stable_ms : Nat)
    (job : Job) : Except JobError JobResult :=
  match s.launch with
  | .error e => .error e
  | .ok _ =>
  match s.new_page with
  | .error e => .error (JobError.browser_error ("New page failed: " ++ e))
  | .ok _ =>
  match s.page.goto job.url with
  | .error e =>
      .error (JobError.navigation_error ("Navigation failed: " ++ e))
  | .ok _ =>
  match s.page.wait_for_stable page_stable_ms with
  | .error e => .error e
  | .ok _ =>
  match (if (job.browser_config.map (fun c => c.fail_on_captcha)).getD false
      then ChromiumWorker.check_captcha s.captcha_result
      else .ok ()) with
  | .error e => .error e
  | .ok _ =>
  match ChromiumWorker.execute_actions s.page job.actions [] with
  | .error e => .error e
  | .ok output =>
      .ok { job_id := job.id, success := true, output := JsonVal.obj output }

/-- A page oracle on which every sub-operation succeeds and every
evaluate returns no value. -/
def happyPage : PageOps :=
  { wait_for_element := fun _ _ _ => .ok ()
    evaluate := fun _ => .ok none
    goto := fun _ => .ok ()
    wait_for_stable := fun _ => .ok ()
    wait_for_navigation := fun _ => .ok ()
    screenshot := fun _ => .ok ()
    write_file := fun _ => .ok ()
    cookie_probes := fun _ => .ok none }

/-- A session on which everything succeeds. -/
def happySession : ChromSession :=
  { launch := .ok (), new_page := .ok (), page := happyPage,
    captcha_result := .ok none }

/-- A recoverable error without a retry delay, attempt 5 of a nominal 10:
the code skips (5 ≥ its own max_retries = 3) while the claim's rules,
which compare against the context's `max_attempts`, say Retry. -/
def c1_ctx : ErrorContext :=
  { job_id := "j"
    error := (JobError.new .Network "boom").mark_recoverable
    attempt := 5
    max_attempts := 10 }

/-- C1 counterexample: `DefaultErrorHealer` with `max_retries = 3` does not
follow the claimed rules on every `ErrorContext` — on a context with
`attempt = 5`, `max_attempts = 10` and a recoverable error carrying no
retry delay, the code returns Skip where the rules prescribe Retry. -/
theorem c1_healer_ignores_ctx_max_attempts :
    DefaultErrorHealer.heal 3 c1_ctx = HealingAction.Skip ∧
    specHealRules c1_ctx = HealingAction.Retry := by
  constructor <;> rfl

/-- C1 (amended): on every `ErrorContext` whose `max_attempts` field equals
the healer's configured `max_retries = 3` — which is how the scheduler
always builds the context — the default healer follows the four ordered
rules exactly; and on every context whatsoever it never returns Abort. -/
theorem c1_default_healer_rules (ctx : ErrorContext) :
    (ctx.max_attempts = 3 → DefaultErrorHealer.heal 3 ctx = specHealRules ctx) ∧
    DefaultErrorHealer.heal 3 ctx ≠ HealingAction.Abort := by
  constructor
  · intro h
    simp [DefaultErrorHealer.heal, specHealRules, h]
  · simp only [DefaultErrorHealer.heal]
    split
    · simp
    · split
      · simp
      · cases ctx.error.retry_after_ms <;> simp

/-- C1 witness: the amended theorem applied to a concrete context with
`max_attempts = 3` (a recoverable error with `retry_after_ms = 500` at
attempt 2, which rule 3 sends to RetryAfter 500). -/
theorem c1_default_healer_rules_witness :
    DefaultErrorHealer.heal 3
        { job_id := "a"
          error := (JobError.new .Network "e").with_retry_delay 500
          attempt := 2
          max_attempts := 3 } = HealingAction.RetryAfter 500 :=
  ((c1_default_healer_rules _).1 rfl).trans rfl

/-- C2: the convenience constructors preset exactly the documented
category, recoverability and default retry delay. -/
theorem c2_constructor_defaults (m sel : String) :
    (JobError.fetch_error m).category = .Network ∧
    (JobError.fetch_error m).recoverable = true ∧
    (JobError.fetch_error m).retry_after_ms = some 1000 ∧
    (JobError.timeout_error m).category = .Timeout ∧
    (JobError.timeout_error m).recoverable = true ∧
    (JobError.timeout_error m).retry_after_ms = some 2000 ∧
    (JobError.navigation_error m).category = .Navigation ∧
    (JobError.navigation_error m).recoverable = true ∧
    (JobError.navigation_error m).retry_after_ms = some 1500 ∧
    (JobError.element_not_found sel).category = .ElementNotFound ∧
    (JobError.element_not_found sel).recoverable = false ∧
    (JobError.element_not_found sel).retry_after_ms = none ∧
    (JobError.script_error m).category = .ScriptExecution ∧
    (JobError.script_error m).recoverable = false ∧
    (JobError.script_error m).retry_after_ms = none ∧
    (JobError.browser_error m).category = .Browser ∧
    (JobError.browser_error m).recoverable = false ∧
    (JobError.browser_error m).retry_after_ms = none ∧
    (JobError.parsing_error m).category = .Parsing ∧
    (JobError.parsing_error m).recoverable = false ∧
    (JobError.parsing_error m).retry_after_ms = none ∧
    (JobError.captcha_detected m).category = .Captcha ∧
    (JobError.captcha_detected m).recoverable = false ∧
    (JobError.captcha_detected m).retry_after_ms = none :=
  ⟨rfl, rfl, rfl, rfl, rfl, rfl, rfl, rfl, rfl, rfl, rfl, rfl,
   rfl, rfl, rfl, rfl, rfl, rfl, rfl, rfl, rfl, rfl, rfl, rfl⟩

/-- C3 counterexample: a Skip verdict does not remove the job's
`retry_counts` entry.  A fresh job failing with a non-recoverable error is
skipped by the default healer at attempt 1, yet its entry is still in the
map (with value 1) afterwards. -/
theorem c3_skip_keeps_retry_count :
    (scheduler_on_failure 8 3 (DefaultErrorHealer.heal 3)
        { queue := [], counts := fun _ => none } jobA
        (JobError.parsing_error "bad html")).verdict = HealingAction.Skip ∧
    (scheduler_on_failure 8 3 (DefaultErrorHealer.heal 3)
        { queue := [], counts := fun _ => none } jobA
        (JobError.parsing_error "bad html")).counts "a" = some 1 := by
  constructor
  · rfl
  · show (if ("a" : String) = jobA.id then some 1 else none) = some 1
    rfl

/-- C3 (amended): the `retry_counts` entry is removed exactly on success
and incremented by exactly one on each failure, whatever the verdict; it
is NOT removed when the healer returns Skip or Abort — a Skip or Abort
leaves the freshly incremented entry in the map, where it stays until a
later success of the same job id erases it. -/
theorem c3_retry_count_lifecycle (capacity max_retries : Nat)
    (healer : ErrorContext → HealingAction) (st : SchedState) (job : Job)
    (err : JobError) :
    (scheduler_on_success st job).counts job.id = none ∧
    (scheduler_on_failure capacity max_retries healer st job err).counts
        job.id = some ((st.counts job.id).getD 0 + 1) := by
  constructor
  · simp [scheduler_on_success, countsRemove]
  · simp only [scheduler_on_failure]
    split <;> simp [countsInsert]

/-- C9: when the healing verdict is Retry or RetryAfter and the inbound
queue is full, the re-enqueue is a non-blocking `try_send` whose `Full`
error is discarded: the queue is unchanged (for every verdict), a delayed
RetryAfter send delivered against a full queue is likewise dropped, and
the scheduler continues normally (the retry count is still updated and no
error is surfaced). -/
theorem c9_retry_on_full_queue_drops (capacity : Nat)
    (healer : ErrorContext → HealingAction) (st : SchedState) (job : Job)
    (err : JobError) (hfull : ¬ st.queue.length < capacity) :
    (scheduler_on_failure capacity 3 healer st job err).queue = st.queue ∧
    (∀ ms j, deliver_delayed capacity st.queue (ms, j) = st.queue) ∧
    (scheduler_on_failure capacity 3 healer st job err).counts job.id =
      some ((st.counts job.id).getD 0 + 1) := by
  refine ⟨?_, ?_, ?_⟩
  · simp only [scheduler_on_failure]
    split <;> simp [mpsc_try_send, hfull]
  · intro ms j
    simp [deliver_delayed, mpsc_try_send, hfull]
  · simp only [scheduler_on_failure]
    split <;> simp [countsInsert]

/-- C9 witness: capacity 0 (queue always full), a recoverable error
(whose verdict is RetryAfter 1000): the theorem applies and the queue
stays empty. -/
theorem c9_retry_on_full_queue_drops_witness :
    (scheduler_on_failure 0 3 (DefaultErrorHealer.heal 3)
        { queue := [], counts := fun _ => none } jobA
        (JobError.fetch_error "down")).queue = [] :=
  (c9_retry_on_full_queue_drops 0 (DefaultErrorHealer.heal 3)
      { queue := [], counts := fun _ => none } jobA
      (JobError.fetch_error "down") (by simp)).1

/-! ### Parser worker lemmas -/

/-- Inserting into the output map appends the key if new, else leaves the
key list unchanged. -/
theorem mapInsert_keys (m : OutMap) (k : String) (v : JsonVal) :
    (mapInsert m k v).map Prod.fst = dedupAppend (m.map Prod.fst) k := by
  induction m with
  | nil => simp [mapInsert, dedupAppend]
  | cons p rest ih =>
    obtain ⟨k', v'⟩ := p
    by_cases h : k' = k
    · subst h
      simp [mapInsert, dedupAppend]
    · by_cases hm : k ∈ rest.map Prod.fst
      · simp [mapInsert, h, ih, dedupAppend, hm, Ne.symm h]
      · simp [mapInsert, h, ih, dedupAppend, hm, Ne.symm h]

/-- A successful scraping action writes exactly its section-4.4 key (and
Fetch writes none). -/
theorem handle_scraping_action_keys (doc : HtmlDoc) (a : ScrapingAction)
    (out out' : OutMap)
    (h : ParserWorker.handle_scraping_action doc a out = .ok out') :
    out'.map Prod.fst =
      match a.key with
      | none => out.map Prod.fst
      | some k => dedupAppend (out.map Prod.fst) k := by
  cases a with
  | Fetch url =>
      simp [ParserWorker.handle_scraping_action] at h
      simp [ScrapingAction.key, ← h]
  | WaitFor s t =>
      simp only [ParserWorker.handle_scraping_action] at h
      split at h
      · cases h
        simp [ScrapingAction.key, mapInsert_keys]
      · cases h
  | Extract s attr =>
      simp only [ParserWorker.handle_scraping_action] at h
      split at h
      · cases h
        simp [ScrapingAction.key, mapInsert_keys]
      · cases h
  | ExtractMultiple s attrs =>
      simp only [ParserWorker.handle_scraping_action] at h
      split at h
      · cases h
        simp [ScrapingAction.key, mapInsert_keys]
      · cases h

/-- A successful run of the parser action loop produces exactly one map
entry per distinct action key, in first-write order. -/
theorem run_actions_keys (doc : HtmlDoc) (acts : List Action)
    (out out' : OutMap)
    (h : ParserWorker.run_actions doc acts out = .ok out') :
    out'.map Prod.fst =
      (acts.filterMap Action.key).foldl dedupAppend (out.map Prod.fst) := by
  induction acts generalizing out with
  | nil =>
      simp [ParserWorker.run_actions] at h
      simp [← h]
  | cons a rest ih =>
      cases a with
      | Scraping sa =>
          simp only [ParserWorker.run_actions] at h
          cases hh : ParserWorker.handle_scraping_action doc sa out with
          | ok mid =>
              rw [hh] at h
              have hk := handle_scraping_action_keys doc sa out mid hh
              have := ih mid h
              cases hkey : sa.key with
              | none =>
                  simp [hkey] at hk
                  simp [Action.key, hkey, this, hk]
              | some k =>
                  simp [hkey] at hk
                  simp [Action.key, hkey, this, hk]
          | error e =>
              rw [hh] at h
              cases h
      | Browser b =>
          simp [ParserWorker.run_actions] at h

/-- A scraping action whose selector parses always succeeds. -/
theorem handle_scraping_action_ok (doc : HtmlDoc) (a : ScrapingAction)
    (out : OutMap) (h : scraping_parses doc a = true) :
    ∃ out', ParserWorker.handle_scraping_action doc a out = .ok out' := by
  cases a <;>
    simp_all [scraping_parses, ParserWorker.handle_scraping_action]

/-- C4 counterexample: the rejection of a browser action in a
`use_browser = false` job is NOT issued before the preceding actions run.
On a job whose first action is a `WaitFor` with the empty selector —
which `scraper::Selector::parse` rejects — followed by a browser action,
the parser worker fails with a Parsing-category error, not the claimed
Unknown-category one. -/
theorem c4_preceding_action_error_wins :
    c4_job.use_browser = false ∧
    c4_job.actions.any Action.isBrowser = true ∧
    ParserWorker.execute (.ok strictDoc) c4_job =
      .error (JobError.parsing_error "empty selector") ∧
    (JobError.parsing_error "empty selector").category ≠
      ErrorCategory.Unknown := by
  refine ⟨rfl, rfl, rfl, ?_⟩
  simp [JobError.parsing_error, JobError.new]

/-- C4 (amended): a `use_browser = false` job containing a browser action
fails with exactly the fixed Unknown-category `JobError` — carrying no
output, so nothing a preceding scraping action did is observable —
provided the fetch succeeded and every scraping action before the first
browser action gets past selector parsing; otherwise the failure of the
preceding action (fetch error or unparsable selector) surfaces instead. -/
theorem c4_browser_action_rejected (doc : HtmlDoc) (job : Job)
    (pre post : List Action) (b : BrowserAction)
    (hacts : job.actions = pre ++ Action.Browser b :: post)
    (hpre : ∀ a ∈ pre, ∃ sa, a = Action.Scraping sa ∧
        scraping_parses doc sa = true) :
    ParserWorker.execute (.ok doc) job = .error parser_browser_action_error ∧
    parser_browser_action_error.category = ErrorCategory.Unknown := by
  constructor
  · have key : ∀ (pre : List Action) (out : OutMap),
        (∀ a ∈ pre, ∃ sa, a = Action.Scraping sa ∧
            scraping_parses doc sa = true) →
        ParserWorker.run_actions doc (pre ++ Action.Browser b :: post) out =
          .error parser_browser_action_error := by
      intro pre
      induction pre with
      | nil => intro out _; simp [ParserWorker.run_actions]
      | cons a rest ih =>
          intro out hall
          obtain ⟨sa, rfl, hok⟩ := hall a (List.mem_cons_self a rest)
          obtain ⟨out', hout⟩ := handle_scraping_action_ok doc sa out hok
          simp only [List.cons_append, ParserWorker.run_actions, hout]
          exact ih out' (fun a ha => hall a (List.mem_cons_of_mem _ ha))
    simp [ParserWorker.execute, hacts, key pre [] hpre]
  · rfl

/-- C4 witness: a job `[WaitFor "h1", PressKey "x"]` on a document where
every selector parses is rejected with the Unknown-category error. -/
theorem c4_browser_action_rejected_witness :
    ParserWorker.execute (.ok emptyDoc)
      { id := "w", url := "u", use_browser := false,
        actions := [Action.Scraping (.WaitFor "h1" 5),
                    Action.Browser (.PressKey "x")],
        browser_config := none } =
      .error parser_browser_action_error :=
  (c4_browser_action_rejected emptyDoc _
      [Action.Scraping (.WaitFor "h1" 5)] [] (.PressKey "x") rfl
      (by intro a ha
          simp at ha
          exact ⟨.WaitFor "h1" 5, ha, rfl⟩)).1

/-- C5 counterexample: `JobResult.output` does not have one entry per
action.  A successful one-action job whose action is a Fetch produces an
empty output map (Fetch writes no entry), and a successful two-action job
with two identical Extracts produces a single entry (the second insert
overwrites the first). -/
theorem c5_entries_not_one_per_action :
    ParserWorker.execute (.ok emptyDoc) c5_job_fetch =
      .ok { job_id := "f", success := true, output := JsonVal.obj [] } ∧
    c5_job_fetch.actions.length = 1 ∧
    ParserWorker.execute (.ok emptyDoc) c5_job_dup =
      .ok { job_id := "d", success := true,
            output := JsonVal.obj [("extract:h1", JsonVal.arr [])] } ∧
    c5_job_dup.actions.length = 2 :=
  ⟨rfl, rfl, rfl, rfl⟩


/-! ### Wait-strategy lemmas -/

/-- One-step unfolding of the element wait loop. -/
theorem wait_for_element_loop_succ (probes : Nat → ProbeRes) (sel : String)
    (t iv : Nat) (cc : Bool) (fuel i elapsed : Nat) :
    wait_for_element_loop probes sel t iv cc (fuel + 1) i elapsed =
      match probes i with
      | .err e =>
          if is_context_destroyed e then
            wait_for_element_loop probes sel t iv cc fuel (i + 1)
              (elapsed + 500)
          else some (.error (to_job_error e "WaitFor"))
      | .val v =>
          match element_probe_decision sel t cc v elapsed with
          | some r => some r
          | none =>
              wait_for_element_loop probes sel t iv cc fuel (i + 1)
                (elapsed + iv) := rfl

/-- One-step unfolding of the stability wait loop. -/
theorem wait_for_stable_loop_succ (probes : Nat → ProbeRes) (t iv : Nat)
    (fuel i elapsed c : Nat) :
    wait_for_stable_loop probes t iv (fuel + 1) i elapsed c =
      match probes i with
      | .err e =>
          if is_context_destroyed e then
            wait_for_stable_loop probes t iv fuel (i + 1) (elapsed + 1000) 0
          else some (.error (to_job_error e "WaitForStable"))
      | .val v =>
          match stable_probe_decision t v elapsed c with
          | (some r, _) => some r
          | (none, c2) =>
              wait_for_stable_loop probes t iv fuel (i + 1)
                (elapsed + iv) c2 := rfl

/-- One element probe decides success exactly when the observed state is
ready: exists, visible, unobscured, and not disabled when clickability is
required. -/
theorem element_probe_decision_ok_iff (sel : String) (t : Nat) (cc : Bool)
    (v : Option JsonVal) (elapsed : Nat) :
    element_probe_decision sel t cc v elapsed = some (Except.ok ()) ↔
      ∃ fields, v = some (JsonVal.obj fields) ∧
        element_ready cc (JsonVal.obj fields) = true := by
  cases v with
  | none =>
      simp only [element_probe_decision]
      split <;> simp
  | some jv =>
      cases jv with
      | obj fields =>
          simp only [element_probe_decision, element_ready]
          cases hex : (JsonVal.obj fields).getBoolD "exists" false <;>
            cases hvis : (JsonVal.obj fields).getBoolD "visible" false <;>
              cases hobs : (JsonVal.obj fields).getBoolD "obscured" false <;>
                cases hdis : (JsonVal.obj fields).getBoolD "disabled" false <;>
                  cases cc <;> simp_all
      | null => simp only [element_probe_decision]; split <;> simp
      | bool b => simp only [element_probe_decision]; split <;> simp
      | num n => simp only [element_probe_decision]; split <;> simp
      | str s => simp only [element_probe_decision]; split <;> simp
      | arr a => simp only [element_probe_decision]; split <;> simp

/-- Once the timeout has elapsed, an evaluated probe always decides. -/
theorem element_probe_decision_total (sel : String) (t : Nat) (cc : Bool)
    (v : Option JsonVal) (elapsed : Nat) (h : elapsed > t) :
    ∃ r, element_probe_decision sel t cc v elapsed = some r := by
  cases v with
  | none =>
      simp only [element_probe_decision]
      split_ifs
      exact ⟨_, rfl⟩
  | some jv =>
      cases jv with
      | obj fields =>
          simp only [element_probe_decision]
          split_ifs <;> exact ⟨_, rfl⟩
      | null =>
          simp only [element_probe_decision]
          split_ifs
          exact ⟨_, rfl⟩
      | bool b =>
          simp only [element_probe_decision]
          split_ifs
          exact ⟨_, rfl⟩
      | num n =>
          simp only [element_probe_decision]
          split_ifs
          exact ⟨_, rfl⟩
      | str s =>
          simp only [element_probe_decision]
          split_ifs
          exact ⟨_, rfl⟩
      | arr a =>
          simp only [element_probe_decision]
          split_ifs
          exact ⟨_, rfl⟩

/-- A successful element wait observed a ready probe. -/
theorem wait_for_element_loop_ok (probes : Nat → ProbeRes) (sel : String)
    (t iv : Nat) (cc : Bool) :
    ∀ fuel i elapsed,
      wait_for_element_loop probes sel t iv cc fuel i elapsed =
        some (Except.ok ()) →
      ∃ j fields, probes j = .val (some (JsonVal.obj fields)) ∧
        element_ready cc (JsonVal.obj fields) = true := by
  intro fuel
  induction fuel with
  | zero => intro i elapsed h; simp [wait_for_element_loop] at h
  | succ n ih =>
      intro i elapsed h
      cases hp : probes i with
      | err e =>
          simp only [wait_for_element_loop_succ, hp] at h
          split at h
          · exact ih _ _ h
          · simp at h
      | val v =>
          simp only [wait_for_element_loop_succ, hp] at h
          cases hd : element_probe_decision sel t cc v elapsed with
          | some r =>
              rw [hd] at h
              simp only [Option.some.injEq] at h
              subst h
              obtain ⟨fields, hv, hr⟩ :=
                (element_probe_decision_ok_iff sel t cc v elapsed).mp hd
              exact ⟨i, fields, hv ▸ hp, hr⟩
          | none =>
              rw [hd] at h
              exact ih _ _ h

/-- Without context-destroyed retries, the element wait returns some
result within `fuel` probes as soon as the elapsed clock must pass the
timeout in that budget. -/
theorem wait_for_element_loop_terminates (probes : Nat → ProbeRes)
    (sel : String) (t iv : Nat) (cc : Bool)
    (hfree : ∀ j e, probes j = .err e → is_context_destroyed e = false) :
    ∀ fuel i elapsed, 0 < fuel → t < elapsed + (fuel - 1) * iv →
      ∃ r, wait_for_element_loop probes sel t iv cc fuel i elapsed =
        some r := by
  intro fuel
  induction fuel with
  | zero => intro i elapsed h0; omega
  | succ n ih =>
      intro i elapsed _ ht
      cases hp : probes i with
      | err e =>
          refine ⟨Except.error (to_job_error e "WaitFor"), ?_⟩
          simp [wait_for_element_loop_succ, hp, hfree i e hp]
      | val v =>
          cases hd : element_probe_decision sel t cc v elapsed with
          | some r =>
              refine ⟨r, ?_⟩
              simp [wait_for_element_loop_succ, hp, hd]
          | none =>
              have hle : ¬ elapsed > t := by
                intro hgt
                obtain ⟨r, hr⟩ :=
                  element_probe_decision_total sel t cc v elapsed hgt
                rw [hd] at hr
                cases hr
              cases n with
              | zero => omega
              | succ m =>
                  have e1 : m + 1 + 1 - 1 = m + 1 := rfl
                  rw [e1] at ht
                  obtain ⟨r, hr⟩ := ih (i + 1) (elapsed + iv) (by omega) (by
                    have e2 : m + 1 - 1 = m := rfl
                    rw [e2]
                    have e3 : elapsed + (m + 1) * iv = elapsed + iv + m * iv := by
                      ring
                    omega)
                  refine ⟨r, ?_⟩
                  simp only [wait_for_element_loop_succ, hp, hd]
                  exact hr

/-- All-context-destroyed traces make the element wait loop forever: the
retry path jumps back to the top of the loop without reaching the
timeout test. -/
theorem wait_for_element_loop_ctx_diverges (probes : Nat → ProbeRes)
    (sel : String) (t iv : Nat) (cc : Bool)
    (hctx : ∀ j, ∃ e, probes j = .err e ∧ is_context_destroyed e = true) :
    ∀ fuel i elapsed,
      wait_for_element_loop probes sel t iv cc fuel i elapsed = none := by
  intro fuel
  induction fuel with
  | zero => intro i elapsed; rfl
  | succ n ih =>
      intro i elapsed
      obtain ⟨e, hp, hce⟩ := hctx i
      simp only [wait_for_element_loop_succ, hp, hce, if_true]
      exact ih (i + 1) (elapsed + 500)

/-- The stability decision never returns an error: every deciding branch
returns success. -/
theorem stable_probe_decision_ok (t : Nat) (v : Option JsonVal)
    (elapsed c : Nat) (r : Except JobError Unit) (c2 : Nat)
    (h : stable_probe_decision t v elapsed c = (some r, c2)) :
    r = Except.ok () := by
  cases v with
  | none =>
      simp only [stable_probe_decision] at h
      split at h <;> simp_all
  | some jv =>
      cases jv with
      | obj fields =>
          simp only [stable_probe_decision] at h
          split at h <;> split_ifs at h <;> simp_all
      | null => simp only [stable_probe_decision] at h; split at h <;> simp_all
      | bool b => simp only [stable_probe_decision] at h; split at h <;> simp_all
      | num n => simp only [stable_probe_decision] at h; split at h <;> simp_all
      | str s => simp only [stable_probe_decision] at h; split at h <;> simp_all
      | arr a => simp only [stable_probe_decision] at h; split at h <;> simp_all

/-- Once the timeout has elapsed, an evaluated stability probe decides. -/
theorem stable_probe_decision_total (t : Nat) (v : Option JsonVal)
    (elapsed c : Nat) (h : elapsed > t) :
    ∃ r c2, stable_probe_decision t v elapsed c = (some r, c2) := by
  cases v with
  | none =>
      simp only [stable_probe_decision]
      split_ifs
      exact ⟨_, _, rfl⟩
  | some jv =>
      cases jv with
      | obj fields =>
          simp only [stable_probe_decision]
          split_ifs <;> exact ⟨_, _, rfl⟩
      | null =>
          simp only [stable_probe_decision]
          split_ifs
          exact ⟨_, _, rfl⟩
      | bool b =>
          simp only [stable_probe_decision]
          split_ifs
          exact ⟨_, _, rfl⟩
      | num n =>
          simp only [stable_probe_decision]
          split_ifs
          exact ⟨_, _, rfl⟩
      | str s =>
          simp only [stable_probe_decision]
          split_ifs
          exact ⟨_, _, rfl⟩
      | arr a =>
          simp only [stable_probe_decision]
          split_ifs
          exact ⟨_, _, rfl⟩

/-- On a trace without driver errors the stability wait can only return
success: the timeout path and the counter path both yield `Ok`. -/
theorem wait_for_stable_loop_no_error (probes : Nat → ProbeRes)
    (t iv : Nat) (hfree : ∀ j e, probes j ≠ .err e) :
    ∀ fuel i elapsed c r,
      wait_for_stable_loop probes t iv fuel i elapsed c = some r →
      r = Except.ok () := by
  intro fuel
  induction fuel with
  | zero => intro i elapsed c r h; simp [wait_for_stable_loop] at h
  | succ n ih =>
      intro i elapsed c r h
      cases hp : probes i with
      | err e => exact absurd hp (hfree i e)
      | val v =>
          simp only [wait_for_stable_loop_succ, hp] at h
          split at h
          · rename_i r0 c2 heq
            injection h with h1
            subst h1
            exact stable_probe_decision_ok t v elapsed c _ c2 heq
          · exact ih _ _ _ _ h

/-- Without context-destroyed retries, the stability wait returns some
result within `fuel` probes once the elapsed clock must pass the timeout
in that budget. -/
theorem wait_for_stable_loop_terminates (probes : Nat → ProbeRes)
    (t iv : Nat)
    (hfree : ∀ j e, probes j = .err e → is_context_destroyed e = false) :
    ∀ fuel i elapsed c, 0 < fuel → t < elapsed + (fuel - 1) * iv →
      ∃ r, wait_for_stable_loop probes t iv fuel i elapsed c = some r := by
  intro fuel
  induction fuel with
  | zero => intro i elapsed c h0; omega
  | succ n ih =>
      intro i elapsed c _ ht
      cases hp : probes i with
      | err e =>
          refine ⟨Except.error (to_job_error e "WaitForStable"), ?_⟩
          simp [wait_for_stable_loop_succ, hp, hfree i e hp]
      | val v =>
          rcases hdec : stable_probe_decision t v elapsed c with ⟨o, c2⟩
          cases o with
          | some r =>
              refine ⟨r, ?_⟩
              simp [wait_for_stable_loop_succ, hp, hdec]
          | none =>
              have hle : ¬ elapsed > t := by
                intro hgt
                obtain ⟨r, c3, hr⟩ :=
                  stable_probe_decision_total t v elapsed c hgt
                rw [hdec] at hr
                simp at hr
              cases n with
              | zero => omega
              | succ m =>
                  have e1 : m + 1 + 1 - 1 = m + 1 := rfl
                  rw [e1] at ht
                  obtain ⟨r, hr⟩ := ih (i + 1) (elapsed + iv) c2 (by omega) (by
                    have e2 : m + 1 - 1 = m := rfl
                    rw [e2]
                    have e3 : elapsed + (m + 1) * iv = elapsed + iv + m * iv := by
                      ring
                    omega)
                  refine ⟨r, ?_⟩
                  simp only [wait_for_stable_loop_succ, hp, hdec]
                  exact hr

/-- All-context-destroyed traces make the stability wait loop forever. -/
theorem wait_for_stable_loop_ctx_diverges (probes : Nat → ProbeRes)
    (t iv : Nat)
    (hctx : ∀ j, ∃ e, probes j = .err e ∧ is_context_destroyed e = true) :
    ∀ fuel i elapsed c,
      wait_for_stable_loop probes t iv fuel i elapsed c = none := by
  intro fuel
  induction fuel with
  | zero => intro i elapsed c; rfl
  | succ n ih =>
      intro i elapsed c
      obtain ⟨e, hp, hce⟩ := hctx i
      simp only [wait_for_stable_loop_succ, hp, hce, if_true]
      exact ih (i + 1) (elapsed + 1000) 0

/-- If the timeout cannot elapse within the fuel budget, a successful
stability wait must have observed five consecutive stable probes. -/
theorem wait_for_stable_loop_window (probes : Nat → ProbeRes) (t iv : Nat)
    (hobj : ∀ j, ∃ fields, probes j = .val (some (JsonVal.obj fields))) :
    ∀ fuel i elapsed c,
      (∀ m, m < fuel → elapsed + m * iv ≤ t) →
      c ≤ i →
      (∀ k, k < c → stable_at probes (i - 1 - k)) →
      wait_for_stable_loop probes t iv fuel i elapsed c =
        some (Except.ok ()) →
      ∃ j, 4 ≤ j ∧ ∀ k, k ≤ 4 → stable_at probes (j - k) := by
  intro fuel
  induction fuel with
  | zero => intro i elapsed c _ _ _ h; simp [wait_for_stable_loop] at h
  | succ n ih =>
      intro i elapsed c hel hci hcons h
      obtain ⟨fields, hp⟩ := hobj i
      have hel0 : elapsed ≤ t := by
        have := hel 0 (by omega)
        simpa using this
      have hnt : ¬ elapsed > t := by omega
      simp only [wait_for_stable_loop_succ, hp] at h
      by_cases hst : page_is_stable (JsonVal.obj fields) = true
      · by_cases hc5 : c + 1 ≥ 5
        · refine ⟨i, by omega, ?_⟩
          intro k hk
          rcases Nat.eq_zero_or_pos k with hk0 | hkpos
          · subst hk0
            simpa using ⟨fields, hp, hst⟩
          · have hkc : k - 1 < c := by omega
            have hs := hcons (k - 1) hkc
            have heq : i - 1 - (k - 1) = i - k := by omega
            rwa [heq] at hs
        · have hdec : stable_probe_decision t
              (some (JsonVal.obj fields)) elapsed c = (none, c + 1) := by
            simp [stable_probe_decision, hst, hc5, hnt]
          simp only [hdec] at h
          refine ih (i + 1) (elapsed + iv) (c + 1) ?_ (by omega) ?_ h
          · intro m hm
            have hm1 := hel (m + 1) (by omega)
            have e3 : elapsed + (m + 1) * iv = elapsed + iv + m * iv := by
              ring
            omega
          · intro k hk
            rcases Nat.eq_zero_or_pos k with hk0 | hkpos
            · subst hk0
              simpa using ⟨fields, hp, hst⟩
            · have hs := hcons (k - 1) (by omega)
              have heq : i - 1 - (k - 1) = i + 1 - 1 - k := by omega
              rwa [heq] at hs
      · have hdec : stable_probe_decision t
            (some (JsonVal.obj fields)) elapsed c = (none, 0) := by
          simp [stable_probe_decision, hst, hnt]
        simp only [hdec] at h
        refine ih (i + 1) (elapsed + iv) 0 ?_ (by omega) (by omega) h
        intro m hm
        have hm1 := hel (m + 1) (by omega)
        have e3 : elapsed + (m + 1) * iv = elapsed + iv + m * iv := by
          ring
        omega

/-- C6: the page-stability wait succeeds through exactly two routes.  On
any trace without driver errors it can only return success (conjunct 1);
when the timeout cannot elapse within the fuel budget, success requires
five consecutive stable probes, i.e. `readyState == "complete"` and
`activeRequests == 0` on probes j-4 .. j (conjunct 2); once the timeout
has elapsed the loop returns success — never an error — whatever the
counter (conjunct 3); and any non-stable probe resets the counter to
zero (conjunct 4). -/
theorem c6_page_stability (probes : Nat → ProbeRes) (t iv : Nat) :
    (∀ fuel r, (∀ j e, probes j ≠ .err e) →
        wait_for_stable probes t iv fuel = some r → r = Except.ok ()) ∧
    (∀ fuel, (∀ j, ∃ fields, probes j = .val (some (JsonVal.obj fields))) →
        (∀ m, m < fuel → 500 + m * iv ≤ t) →
        wait_for_stable probes t iv fuel = some (Except.ok ()) →
        ∃ j, 4 ≤ j ∧ ∀ k, k ≤ 4 → stable_at probes (j - k)) ∧
    (∀ fuel i elapsed c, elapsed > t → (∀ e, probes i ≠ .err e) →
        wait_for_stable_loop probes t iv (fuel + 1) i elapsed c =
          some (Except.ok ())) ∧
    (∀ fuel i elapsed c fields,
        probes i = .val (some (JsonVal.obj fields)) →
        page_is_stable (JsonVal.obj fields) = false → ¬ elapsed > t →
        wait_for_stable_loop probes t iv (fuel + 1) i elapsed c =
          wait_for_stable_loop probes t iv fuel (i + 1) (elapsed + iv) 0) := by
  refine ⟨?_, ?_, ?_, ?_⟩
  · intro fuel r hfree h
    exact wait_for_stable_loop_no_error probes t iv hfree fuel 0 500 0 r h
  · intro fuel hobj hel h
    exact wait_for_stable_loop_window probes t iv hobj fuel 0 500 0 hel
      (by omega) (by omega) h
  · intro fuel i elapsed c hgt hne
    cases hp : probes i with
    | err e => exact absurd hp (hne e)
    | val v =>
        obtain ⟨r, c2, hdec⟩ := stable_probe_decision_total t v elapsed c hgt
        have hr := stable_probe_decision_ok t v elapsed c r c2 hdec
        subst hr
        simp [wait_for_stable_loop_succ, hp, hdec]
  · intro fuel i elapsed c fields hp hst hnt
    have hdec : stable_probe_decision t
        (some (JsonVal.obj fields)) elapsed c = (none, 0) := by
      simp [stable_probe_decision, hst, hnt]
    simp [wait_for_stable_loop_succ, hp, hdec]

/-- C6 witness: on an always-stable trace with a generous timeout the
wait succeeds, and the theorem recovers a window of five consecutive
stable probes. -/
theorem c6_page_stability_witness :
    ∃ j, 4 ≤ j ∧ ∀ k, k ≤ 4 → stable_at stableTrace (j - k) :=
  (c6_page_stability stableTrace 100000 300).2.1 10
    (fun _ => ⟨_, rfl⟩) (by intro m hm; omega) (by rfl)

/-- C7: element-wait timeout classification.  A probe decides success
exactly on a ready state (conjunct 1); past the timeout, the current
probe state picks the error — not existing, existing-but-invisible (with
the hidden-by-CSS hint), obscured (context naming the obscurer and
suggesting the cookie-banner handler), or disabled under a clickability
check (conjunct 2), with an object-less probe classified as Timeout
(conjunct 3); the errors carry the claimed categories and context fields
(conjunct 4); and a successful wait observed a ready probe
(conjunct 5). -/
theorem c7_element_wait_classification (probes : Nat → ProbeRes)
    (sel : String) (t iv : Nat) (cc : Bool) :
    (∀ v elapsed,
        element_probe_decision sel t cc v elapsed = some (Except.ok ()) ↔
          ∃ fields, v = some (JsonVal.obj fields) ∧
            element_ready cc (JsonVal.obj fields) = true) ∧
    (∀ fields elapsed, elapsed > t →
        (((JsonVal.obj fields).getBoolD "exists" false = false →
          element_probe_decision sel t cc (some (JsonVal.obj fields))
              elapsed = some (Except.error (elem_not_found_err sel t))) ∧
         ((JsonVal.obj fields).getBoolD "exists" false = true →
          (JsonVal.obj fields).getBoolD "visible" false = false →
          element_probe_decision sel t cc (some (JsonVal.obj fields))
              elapsed = some (Except.error (elem_not_visible_err sel))) ∧
         ((JsonVal.obj fields).getBoolD "exists" false = true →
          (JsonVal.obj fields).getBoolD "visible" false = true →
          (JsonVal.obj fields).getBoolD "obscured" false = true →
          element_probe_decision sel t cc (some (JsonVal.obj fields))
              elapsed = some (Except.error (elem_obscured_err sel
                (((JsonVal.obj fields).getStr "obscuredBy").getD
                  "unknown")))) ∧
         ((JsonVal.obj fields).getBoolD "exists" false = true →
          (JsonVal.obj fields).getBoolD "visible" false = true →
          (JsonVal.obj fields).getBoolD "obscured" false = false →
          (cc && (JsonVal.obj fields).getBoolD "disabled" false) = true →
          element_probe_decision sel t cc (some (JsonVal.obj fields))
              elapsed = some (Except.error (elem_disabled_err sel))))) ∧
    (∀ elapsed, elapsed > t →
        element_probe_decision sel t cc none elapsed =
          some (Except.error (elem_timeout_err sel t))) ∧
    ((elem_not_found_err sel t).category = ErrorCategory.ElementNotFound ∧
     (elem_not_visible_err sel).category = ErrorCategory.ElementNotFound ∧
     (elem_not_visible_err sel).context.getStr "hint" =
       some "Element may be hidden with CSS" ∧
     (∀ ob, (elem_obscured_err sel ob).category =
          ErrorCategory.ElementNotFound ∧
        (elem_obscured_err sel ob).context.getStr "obscured_by" = some ob ∧
        (elem_obscured_err sel ob).context.getStr "suggestion" =
          some "Use HandleCookieBanner or WaitAndClick") ∧
     (elem_disabled_err sel).category = ErrorCategory.ElementNotFound ∧
     (elem_timeout_err sel t).category = ErrorCategory.Timeout) ∧
    (∀ fuel, wait_for_element probes sel t iv cc fuel =
        some (Except.ok ()) →
      ∃ j fields, probes j = .val (some (JsonVal.obj fields)) ∧
        element_ready cc (JsonVal.obj fields) = true) := by
  refine ⟨fun v elapsed => element_probe_decision_ok_iff sel t cc v elapsed,
    ?_, ?_, ?_, ?_⟩
  · intro fields elapsed hgt
    refine ⟨?_, ?_, ?_, ?_⟩
    · intro hex
      simp [element_probe_decision, hex, hgt]
    · intro hex hvis
      simp [element_probe_decision, hex, hvis, hgt]
    · intro hex hvis hobs
      simp [element_probe_decision, hex, hvis, hobs, hgt]
    · intro hex hvis hobs hcd
      simp [element_probe_decision, hex, hvis, hobs, hcd, hgt]
  · intro elapsed hgt
    simp [element_probe_decision, hgt]
  · exact ⟨rfl, rfl, rfl, fun ob => ⟨rfl, rfl, rfl⟩, rfl, rfl⟩
  · intro fuel
    exact wait_for_element_loop_ok probes sel t iv cc fuel 0 0

/-- C7 witness: a ready probe decides success, and once past the timeout
an object-less probe yields the Timeout-classified error. -/
theorem c7_element_wait_classification_witness :
    element_probe_decision "e" 10 true (some (JsonVal.obj readyFields)) 0 =
      some (Except.ok ()) ∧
    element_probe_decision "e" 10 true none 11 =
      some (Except.error (elem_timeout_err "e" 10)) :=
  ⟨((c7_element_wait_classification ctxTrace "e" 10 300 true).1 _ 0).mpr
      ⟨readyFields, rfl, rfl⟩,
   (c7_element_wait_classification ctxTrace "e" 10 300 true).2.2.1 11
      (by omega)⟩

/-- C8 counterexample: the intrinsic timeout does not bound the waits.
With `timeout_ms = 1000` and a 300ms check interval the claim gives at
most 1300ms — a handful of probes — yet on a trace whose every evaluate
fails with the context-destroyed error both loops are still running
after 50 probes (more than 25 simulated seconds): the retry path skips
the timeout test. -/
theorem c8_ctx_trace_counterexample :
    wait_for_element ctxTrace "x" 1000 300 false 50 = none ∧
    wait_for_stable ctxTrace 1000 300 50 = none := by
  have hctx : ∀ j, ∃ e, ctxTrace j = .err e ∧
      is_context_destroyed e = true :=
    fun j => ⟨"Execution context was destroyed.", rfl, by decide⟩
  exact ⟨wait_for_element_loop_ctx_diverges ctxTrace "x" 1000 300 false
      hctx 50 0 0,
    wait_for_stable_loop_ctx_diverges ctxTrace 1000 300 hctx 50 0 500 0⟩

/-- C8 (amended): when no evaluate call fails with the context-destroyed
error, both waits return within their timeout — a fuel budget of
`t / iv + 2` probes, whose elapsed clock passes the timeout, always
suffices; but on a trace whose every evaluate fails with
context-destroyed, neither wait ever returns, for any amount of fuel, so
the claimed intrinsic bound fails in exactly that case. -/
theorem c8_wait_timeout_bound (probes : Nat → ProbeRes) (sel : String)
    (t iv : Nat) (cc : Bool) :
    (0 < iv →
      (∀ j e, probes j = .err e → is_context_destroyed e = false) →
      (∃ r, wait_for_element probes sel t iv cc (t / iv + 2) = some r) ∧
      (∃ r, wait_for_stable probes t iv (t / iv + 2) = some r)) ∧
    ((∀ j, ∃ e, probes j = .err e ∧ is_context_destroyed e = true) →
      ∀ fuel, wait_for_element probes sel t iv cc fuel = none ∧
        wait_for_stable probes t iv fuel = none) := by
  constructor
  · intro hiv hfree
    have hdiv : t < (t / iv + 1) * iv := by
      have h1 := Nat.div_add_mod t iv
      have h2 := Nat.mod_lt t hiv
      calc t = iv * (t / iv) + t % iv := h1.symm
        _ < iv * (t / iv) + iv := by omega
        _ = (t / iv + 1) * iv := by ring
    have he1 : t / iv + 2 - 1 = t / iv + 1 := rfl
    constructor
    · refine wait_for_element_loop_terminates probes sel t iv cc hfree
        (t / iv + 2) 0 0 (Nat.add_pos_right _ (by norm_num)) ?_
      rw [he1]
      simpa using hdiv
    · refine wait_for_stable_loop_terminates probes t iv hfree
        (t / iv + 2) 0 500 0 (Nat.add_pos_right _ (by norm_num)) ?_
      rw [he1]
      exact lt_of_lt_of_le hdiv (Nat.le_add_left _ _)
  · intro hctx fuel
    exact ⟨wait_for_element_loop_ctx_diverges probes sel t iv cc hctx
        fuel 0 0,
      wait_for_stable_loop_ctx_diverges probes t iv hctx fuel 0 500 0⟩

/-- C8 witness: a context-destroyed-free trace terminates within the
budget, and the all-context-destroyed trace is still running at fuel 7. -/
theorem c8_wait_timeout_bound_witness :
    (∃ r, wait_for_element (fun _ => ProbeRes.val none) "s" 1000 300 false
        (1000 / 300 + 2) = some r) ∧
    wait_for_element ctxTrace "s" 1000 300 false 7 = none := by
  constructor
  · exact ((c8_wait_timeout_bound (fun _ => ProbeRes.val none) "s" 1000 300
        false).1 (by omega) (by intro j e h; simp at h)).1
  · exact ((c8_wait_timeout_bound ctxTrace "s" 1000 300 false).2
      (fun j => ⟨"Execution context was destroyed.", rfl, by decide⟩) 7).1

/-! ### Browser worker lemmas -/

/-- A successful browser-side scraping action writes exactly its
section-4.4 key (and Fetch writes none). -/
theorem handle_scraping_keys (p : PageOps) (a : ScrapingAction)
    (out out' : OutMap)
    (h : ActionHandler.handle_scraping p a out = .ok out') :
    out'.map Prod.fst =
      match a.key with
      | none => out.map Prod.fst
      | some k => dedupAppend (out.map Prod.fst) k := by
  cases a with
  | Fetch url =>
      simp only [ActionHandler.handle_scraping] at h
      simp only [Except.ok.injEq] at h
      subst h
      simp [ScrapingAction.key]
  | WaitFor s t =>
      simp only [ActionHandler.handle_scraping] at h
      split at h
      · simp at h
      · simp only [Except.ok.injEq] at h
        subst h
        simp [ScrapingAction.key, mapInsert_keys]
  | Extract s attr =>
      simp only [ActionHandler.handle_scraping] at h
      split at h
      · simp at h
      · simp only [Except.ok.injEq] at h
        subst h
        simp [ScrapingAction.key, mapInsert_keys]
  | ExtractMultiple s attrs =>
      simp only [ActionHandler.handle_scraping] at h
      split at h
      · simp at h
      · simp only [Except.ok.injEq] at h
        subst h
        simp [ScrapingAction.key, mapInsert_keys]

/-- A successful browser action writes exactly its section-4.4 key. -/
theorem handle_browser_keys (p : PageOps) (a : BrowserAction)
    (out out' : OutMap)
    (h : ActionHandler.handle_browser p a out = .ok out') :
    out'.map Prod.fst = dedupAppend (out.map Prod.fst) a.key := by
  cases a <;>
    · simp only [ActionHandler.handle_browser] at h
      repeat' split at h
      all_goals try simp only [Except.ok.injEq] at h
      all_goals
        first
        | exact Except.noConfusion h
        | (subst h
           simp [BrowserAction.key, mapInsert_keys])

/-- A successful run of the browser action loop produces exactly one map
entry per distinct action key, in first-write order. -/
theorem execute_actions_keys (p : PageOps) (acts : List Action)
    (out out' : OutMap)
    (h : ChromiumWorker.execute_actions p acts out = .ok out') :
    out'.map Prod.fst =
      (acts.filterMap Action.key).foldl dedupAppend (out.map Prod.fst) := by
  induction acts generalizing out with
  | nil =>
      simp [ChromiumWorker.execute_actions] at h
      simp [← h]
  | cons a rest ih =>
      cases a with
      | Scraping sa =>
          simp only [ChromiumWorker.execute_actions] at h
          cases hh : ActionHandler.handle_scraping p sa out with
          | ok mid =>
              rw [hh] at h
              have hk := handle_scraping_keys p sa out mid hh
              have hrest := ih mid h
              cases hkey : sa.key with
              | none =>
                  simp [hkey] at hk
                  simp [Action.key, hkey, hrest, hk]
              | some k =>
                  simp [hkey] at hk
                  simp [Action.key, hkey, hrest, hk]
          | error e =>
              rw [hh] at h
              cases h
      | Browser ba =>
          simp only [ChromiumWorker.execute_actions] at h
          cases hh : ActionHandler.handle_browser p ba out with
          | ok mid =>
              rw [hh] at h
              have hk := handle_browser_keys p ba out mid hh
              have hrest := ih mid h
              simp [Action.key, hrest, hk]
          | error e =>
              rw [hh] at h
              cases h

/-- Inversion of a successful parser execute: the fetch succeeded, the
action loop succeeded, and the result is the success record over the
loop's output. -/
theorem parser_execute_ok (fetched : Except String HtmlDoc) (job : Job)
    (r : JobResult) (h : ParserWorker.execute fetched job = .ok r) :
    ∃ doc out, fetched = .ok doc ∧
      ParserWorker.run_actions doc job.actions [] = .ok out ∧
      r = { job_id := job.id, success := true,
            output := JsonVal.obj out } := by
  cases fetched with
  | error e => simp [ParserWorker.execute] at h
  | ok doc =>
      simp only [ParserWorker.execute] at h
      cases hr : ParserWorker.run_actions doc job.actions [] with
      | error e =>
          rw [hr] at h
          exact Except.noConfusion h
      | ok out =>
          rw [hr] at h
          simp only [Except.ok.injEq] at h
          exact ⟨doc, out, rfl, hr, h.symm⟩

/-- Inversion of a successful chromium execute: every pre-action stage
succeeded, the action loop succeeded, and the result is the success
record over the loop's output. -/
theorem chromium_execute_ok (s : ChromSession) (pest : Nat) (job : Job)
    (r : JobResult) (h : ChromiumWorker.execute s pest job = .ok r) :
    ∃ out, ChromiumWorker.execute_actions s.page job.actions [] = .ok out ∧
      r = { job_id := job.id, success := true,
            output := JsonVal.obj out } := by
  simp only [ChromiumWorker.execute] at h
  repeat' split at h
  all_goals try exact Except.noConfusion h
  rename_i out heq
  simp only [Except.ok.injEq] at h
  exact ⟨out, heq, h.symm⟩

/-- C5 (amended): on success the output holds exactly one entry per
distinct action key — every non-Fetch action writes exactly the
section-4.4 key for its verb and discriminator, Fetch writes no entry,
and a later action with the same key overwrites the earlier entry, so
the output's key list is a permutation of the deduplicated action keys
(the map's own iteration order is not asserted).  This holds for both
the static-HTML worker and the browser worker. -/
theorem c5_output_keys (job : Job) :
    (∀ fetched r, ParserWorker.execute fetched job = .ok r →
        ∃ entries, r.output = JsonVal.obj entries ∧
          (entries.map Prod.fst).Perm (expectedKeys job.actions)) ∧
    (∀ s pest r, ChromiumWorker.execute s pest job = .ok r →
        ∃ entries, r.output = JsonVal.obj entries ∧
          (entries.map Prod.fst).Perm (expectedKeys job.actions)) := by
  constructor
  · intro fetched r h
    obtain ⟨doc, out, -, hr, rfl⟩ := parser_execute_ok fetched job r h
    refine ⟨out, rfl, ?_⟩
    have hk := run_actions_keys doc job.actions [] out hr
    have hk2 : out.map Prod.fst = expectedKeys job.actions := by
      simpa [expectedKeys] using hk
    exact hk2 ▸ List.Perm.refl _
  · intro s pest r h
    obtain ⟨out, hr, rfl⟩ := chromium_execute_ok s pest job r h
    refine ⟨out, rfl, ?_⟩
    have hk := execute_actions_keys s.page job.actions [] out hr
    have hk2 : out.map Prod.fst = expectedKeys job.actions := by
      simpa [expectedKeys] using hk
    exact hk2 ▸ List.Perm.refl _

/-- C5 witness: the duplicate-Extract job yields a single entry whose
key list is a permutation of the deduplicated key list of its actions. -/
theorem c5_output_keys_witness :
    ∃ entries,
      (JsonVal.obj [("extract:h1", JsonVal.arr [])]) = JsonVal.obj entries ∧
      (entries.map Prod.fst).Perm (expectedKeys c5_job_dup.actions) :=
  (c5_output_keys c5_job_dup).1 (.ok emptyDoc)
    { job_id := "d", success := true,
      output := JsonVal.obj [("extract:h1", JsonVal.arr [])] } rfl

/-- C10: every `JobResult` either worker ever returns has
`success = true` — both workers communicate failure only as an error
value, so a returned result record is always a success record. -/
theorem c10_results_always_success :
    (∀ fetched job r, ParserWorker.execute fetched job = .ok r →
        r.success = true) ∧
    (∀ s pest job r, ChromiumWorker.execute s pest job = .ok r →
        r.success = true) := by
  constructor
  · intro fetched job r h
    obtain ⟨doc, out, -, -, rfl⟩ := parser_execute_ok fetched job r h
    rfl
  · intro s pest job r h
    obtain ⟨out, -, rfl⟩ := chromium_execute_ok s pest job r h
    rfl

/-- C10 witness: a fully successful browser session on the empty-action
job returns a result, and the theorem reports it successful. -/
theorem c10_results_always_success_witness :
    ({ job_id := "a", success := true,
       output := JsonVal.obj [] } : JobResult).success = true :=
  c10_results_always_success.2 happySession 30000 jobA
    { job_id := "a", success := true, output := JsonVal.obj [] } rfl

end Rocky
